import Mathlib

/-!
Verification of the Oppia jobs subsystem (core/jobs_registry.py together with
the contract exercised by core/jobs_test.py).

The production module core/jobs.py is not part of the available sources; its
job-manager state machine, output compression, continuous-computation protocol
and realtime-layer store are modelled here from the natural-language
specification (spec.md), as indicated by the doc comment of each such
definition.  The event dispatcher is translated directly from
core/jobs_registry.py, and the concrete continuous-computation handler and
batch map/reduce used in the scenarios are translated from the mock classes
defined in core/jobs_test.py.
-/

set_option autoImplicit false

namespace OppiaJobs

/-- Modelled from the spec: the status codes of a Job Record
(STATUS_CODE_NEW .. STATUS_CODE_CANCELED in core/jobs.py, absent from the
sources).  Terminal statuses are completed, failed and canceled. -/
inductive JobStatus where
  | new
  | queued
  | started
  | completed
  | failed
  | canceled
deriving DecidableEq, Repr

/-- Modelled from the spec: the lower-case wire names of the status codes, as
they appear in the invalid-transition error message
(the test expects "from new to failed"). -/
def statusName : JobStatus → String
  | .new => "new"
  | .queued => "queued"
  | .started => "started"
  | .completed => "completed"
  | .failed => "failed"
  | .canceled => "canceled"

/-- Modelled from the spec: terminal statuses (COMPLETED, FAILED, CANCELED). -/
def isTerminalStatus : JobStatus → Bool
  | .completed => true
  | .failed => true
  | .canceled => true
  | _ => false

/-- Modelled from the spec: a Job Record, the persisted metadata of one job
execution (JobModel).  Fields not needed by any claim (job_type, metadata)
are omitted. -/
structure JobRecord where
  id : String
  status_code : JobStatus
  time_queued_msec : Option Nat
  time_started_msec : Option Nat
  time_finished_msec : Option Nat
  output : Option (List String)
  error : Option String
deriving DecidableEq, Repr

/-- Modelled from the spec: the record inserted by create_new - status NEW and
all timestamps, output and error null. -/
def create_new (jobId : String) : JobRecord :=
  { id := jobId
    status_code := .new
    time_queued_msec := none
    time_started_msec := none
    time_finished_msec := none
    output := none
    error := none }

/-- Modelled from the spec: the legal status-transition graph
NEW -> QUEUED -> STARTED -> (COMPLETED or FAILED), with QUEUED -> CANCELED. -/
def valid_status_transition : JobStatus → JobStatus → Bool
  | .new, .queued => true
  | .queued, .started => true
  | .queued, .canceled => true
  | .started, .completed => true
  | .started, .failed => true
  | _, _ => false

/-- Modelled from the spec: the errors surfaced by the Job Manager.  An
invalid status change names the job id and the attempted from/to states. -/
inductive JobError where
  | invalidStatusChange (jobId : String) (fromStatus toStatus : JobStatus)
  | jobNotFound (jobId : String)
deriving DecidableEq, Repr

/-- Modelled from the spec: the user-visible message of a Job Manager error;
the invalid-transition message is the one matched by the tests:
"Invalid status code change for job (id): from (a) to (b)". -/
def jobErrorMessage : JobError → String
  | .invalidStatusChange jobId a b =>
      "Invalid status code change for job " ++ jobId ++ ": from "
        ++ statusName a ++ " to " ++ statusName b
  | .jobNotFound jobId => "Job " ++ jobId ++ " does not exist"

/-- Modelled from the spec: the guarded status update shared by all
transition operations: if the change is outside the legal graph it fails with
an invalid-status-change error and the record is not modified. -/
def update_status (r : JobRecord) (target : JobStatus) :
    Except JobError JobRecord :=
  if valid_status_transition r.status_code target then
    .ok { r with status_code := target }
  else
    .error (.invalidStatusChange r.id r.status_code target)

/-- The fixed sentinel appended when register_completion truncates output
(matches the value observed by the tests). -/
def truncatedSentinel : String := "<TRUNCATED>"

/-- Modelled from the spec: output compression in register_completion.
Stringified items are kept in order while they fit the remaining character
budget; as soon as one does not fit, it and everything after it are dropped
and the sentinel is appended as the last element. -/
def compress_output_list : List String → Nat → List String
  | [], _ => []
  | x :: xs, budget =>
    if x.length ≤ budget then
      x :: compress_output_list xs (budget - x.length)
    else
      [truncatedSentinel]

/-- Modelled from the spec: enqueue transitions NEW -> QUEUED and records
time_queued_msec (the hand-off to the external dispatch collaborator and the
job-type/parameter validation are outside the claims modelled here). -/
def enqueue (r : JobRecord) (t : Nat) : Except JobError JobRecord :=
  (update_status r .queued).map fun r2 => { r2 with time_queued_msec := some t }

/-- Modelled from the spec: register_start transitions QUEUED -> STARTED and
records time_started_msec. -/
def register_start (r : JobRecord) (t : Nat) : Except JobError JobRecord :=
  (update_status r .started).map fun r2 =>
    { r2 with time_started_msec := some t }

/-- Modelled from the spec: register_completion transitions
STARTED -> COMPLETED, records time_finished_msec and stores the output,
compressed to the character budget. -/
def register_completion (r : JobRecord) (t : Nat) (items : List String)
    (maxOutputLenChars : Nat) : Except JobError JobRecord :=
  (update_status r .completed).map fun r2 =>
    { r2 with
        time_finished_msec := some t
        output := some (compress_output_list items maxOutputLenChars) }

/-- Modelled from the spec: register_failure transitions STARTED -> FAILED,
records time_finished_msec and stores the error string. -/
def register_failure (r : JobRecord) (t : Nat) (msg : String) :
    Except JobError JobRecord :=
  (update_status r .failed).map fun r2 =>
    { r2 with time_finished_msec := some t, error := some msg }

/-- The four status-transition operations of the Job Manager, with their
payloads, used to talk about arbitrary operation sequences. -/
inductive JobOp where
  | enqueueOp
  | startOp
  | completeOp (items : List String) (maxOutputLenChars : Nat)
  | failOp (msg : String)
deriving DecidableEq, Repr

/-- The status a given operation attempts to move the record to. -/
def opTarget : JobOp → JobStatus
  | .enqueueOp => .queued
  | .startOp => .started
  | .completeOp _ _ => .completed
  | .failOp _ => .failed

/-- Dispatch a JobOp to the corresponding Job Manager operation. -/
def apply_job_op (r : JobRecord) : JobOp → Nat → Except JobError JobRecord
  | .enqueueOp, t => enqueue r t
  | .startOp, t => register_start r t
  | .completeOp items maxLen, t => register_completion r t items maxLen
  | .failOp msg, t => register_failure r t msg

/-- The persisted collection of Job Records, keyed by job id. -/
abbrev JobStore : Type := List (String × JobRecord)

/-- First-match lookup of a job id in the store. -/
def storeLookup : JobStore → String → Option JobRecord
  | [], _ => none
  | (k, v) :: rest, jobId => if k = jobId then some v else storeLookup rest jobId

/-- Replace the record stored under a job id (first occurrence). -/
def storeUpdate : JobStore → String → JobRecord → JobStore
  | [], _, _ => []
  | (k, v) :: rest, jobId, r =>
    if k = jobId then (k, r) :: rest else (k, v) :: storeUpdate rest jobId r

/-- Modelled from the spec: a transition operation run against the persisted
store.  On failure the error is surfaced to the caller and the store - in
particular the Job Record being transitioned - is left unchanged. -/
def apply_job_op_to_store (store : JobStore) (jobId : String) (op : JobOp)
    (t : Nat) : JobStore × Option JobError :=
  match storeLookup store jobId with
  | none => (store, some (.jobNotFound jobId))
  | some r =>
    match apply_job_op r op t with
    | .ok r2 => (storeUpdate store jobId r2, none)
    | .error e => (store, some e)

/-- Modelled from the spec: the boundary failure handler
(StoreMapReduceResults.run on the failure path): it logs a timestamped
message identifying the job id and then converts the failure into a
register_failure call, whose outcome (including an invalid-transition
rejection) is reported to the caller. -/
def handle_job_execution_failure (store : JobStore) (jobId : String) (t : Nat)
    (failureMsg : String) : JobStore × List String × Option JobError :=
  let logged := "Job " ++ jobId ++ " failed at " ++ toString t
  let res := apply_job_op_to_store store jobId (.failOp failureMsg) t
  (res.1, [logged], res.2)

/-- Whether the record is active (status QUEUED or STARTED). -/
def is_active (r : JobRecord) : Bool :=
  match r.status_code with
  | .queued => true
  | .started => true
  | _ => false

/-- Whether the record has finished (status terminal). -/
def has_finished (r : JobRecord) : Bool :=
  isTerminalStatus r.status_code

/-- Modelled from the spec: the effect of cancel_all_unfinished_jobs on one
record: a non-terminal job is forced to CANCELED with
error "Canceled by (user_id)" and its output cleared; a terminal job is left
unchanged. -/
def cancel_job (userId : String) (r : JobRecord) : JobRecord :=
  if isTerminalStatus r.status_code then r
  else
    { r with
        status_code := .canceled
        error := some ("Canceled by " ++ userId)
        output := none }

/-- Modelled from the spec: cancel_all_unfinished_jobs applied to the list of
this manager type's job records. -/
def cancel_all_unfinished_jobs (userId : String) (jobs : List JobRecord) :
    List JobRecord :=
  jobs.map (cancel_job userId)

/-- Run a sequence of timed transition operations against a record,
propagating the first error. -/
def run_job_ops : JobRecord → List (JobOp × Nat) → Except JobError JobRecord
  | r, [] => .ok r
  | r, (op, t) :: rest =>
    match apply_job_op r op t with
    | .ok r2 => run_job_ops r2 rest
    | .error e => .error e

/-- The operation sets time_queued_msec. -/
def setsQueuedTime : JobOp → Bool
  | .enqueueOp => true
  | _ => false

/-- The operation sets time_started_msec. -/
def setsStartedTime : JobOp → Bool
  | .startOp => true
  | _ => false

/-- The operation sets time_finished_msec. -/
def setsFinishedTime : JobOp → Bool
  | .completeOp _ _ => true
  | .failOp _ => true
  | _ => false

/-- The times of a trace are at least the bound and strictly increasing. -/
def timesIncreasing : Nat → List Nat → Bool
  | _, [] => true
  | b, t :: rest => decide (b ≤ t) && timesIncreasing (t + 1) rest

/-- Record invariant at bound b: status and timestamps are consistent with
the legal lifecycle, the set timestamps are strictly ordered, and every set
timestamp is below b. -/
def recordInvariantAt (r : JobRecord) (b : Nat) : Bool :=
  match r.status_code, r.time_queued_msec, r.time_started_msec,
      r.time_finished_msec with
  | .new, none, none, none => true
  | .queued, some q, none, none => decide (q < b)
  | .started, some q, some s, none => decide (q < s) && decide (s < b)
  | .completed, some q, some s, some f =>
      decide (q < s) && decide (s < f) && decide (f < b)
  | .failed, some q, some s, some f =>
      decide (q < s) && decide (s < f) && decide (f < b)
  | _, _, _, _ => false

/-- Total length in characters of a list of output strings (no separators:
the budget in the tests is met exactly by the joined item lengths). -/
def sumLen (l : List String) : Nat := (l.map String.length).sum

theorem sumLen_nil : sumLen [] = 0 := rfl

theorem sumLen_cons (x : String) (l : List String) :
    sumLen (x :: l) = x.length + sumLen l := by
  simp [sumLen]

/-- One transition step preserves the record invariant and changes exactly
the timestamp field owned by the operation, which was previously unset. -/
theorem apply_job_op_step (r : JobRecord) (op : JobOp) (t b : Nat)
    (r' : JobRecord) (hinv : recordInvariantAt r b = true) (hbt : b ≤ t)
    (hap : apply_job_op r op t = .ok r') :
    recordInvariantAt r' (t + 1) = true ∧
    r'.time_queued_msec.isSome = (setsQueuedTime op || r.time_queued_msec.isSome) ∧
    (setsQueuedTime op = true → r.time_queued_msec = none) ∧
    r'.time_started_msec.isSome = (setsStartedTime op || r.time_started_msec.isSome) ∧
    (setsStartedTime op = true → r.time_started_msec = none) ∧
    r'.time_finished_msec.isSome = (setsFinishedTime op || r.time_finished_msec.isSome) ∧
    (setsFinishedTime op = true → r.time_finished_msec = none) := by
  obtain ⟨rid, st, tq, ts, tf, out, err⟩ := r
  cases op <;> cases st <;> cases tq <;> cases ts <;> cases tf <;>
    simp [apply_job_op, enqueue, register_start, register_completion,
      register_failure, update_status, valid_status_transition,
      Except.map] at hap <;>
    simp [recordInvariantAt] at hinv <;>
    subst hap <;>
    simp [recordInvariantAt, setsQueuedTime, setsStartedTime,
      setsFinishedTime] <;>
    omega

/-- Running a trace of operations whose times are strictly increasing and at
least the invariant bound preserves the invariant, and the number of
operations of each timestamp-setting kind accounts exactly for the presence
of the corresponding timestamp in the final record. -/
theorem run_job_ops_inv :
    ∀ (ops : List (JobOp × Nat)) (r : JobRecord) (b : Nat) (r' : JobRecord),
      recordInvariantAt r b = true →
      timesIncreasing b (ops.map Prod.snd) = true →
      run_job_ops r ops = .ok r' →
      (∃ b', recordInvariantAt r' b' = true) ∧
      (ops.countP (fun p => setsQueuedTime p.1) + r.time_queued_msec.isSome.toNat
        = r'.time_queued_msec.isSome.toNat) ∧
      (ops.countP (fun p => setsStartedTime p.1) + r.time_started_msec.isSome.toNat
        = r'.time_started_msec.isSome.toNat) ∧
      (ops.countP (fun p => setsFinishedTime p.1) + r.time_finished_msec.isSome.toNat
        = r'.time_finished_msec.isSome.toNat)
  | [], r, b, r', hinv, _, hrun => by
      simp [run_job_ops] at hrun
      subst hrun
      exact ⟨⟨b, hinv⟩, by simp, by simp, by simp⟩
  | (op, t) :: rest, r, b, r', hinv, hmono, hrun => by
      simp [timesIncreasing] at hmono
      obtain ⟨hbt, hmono2⟩ := hmono
      cases hap : apply_job_op r op t with
      | error e =>
          rw [run_job_ops, hap] at hrun
          cases hrun
      | ok r2 =>
          rw [run_job_ops, hap] at hrun
          obtain ⟨hinv2, hq2, hqnone, hs2, hsnone, hf2, hfnone⟩ :=
            apply_job_op_step r op t b r2 hinv hbt hap
          obtain ⟨hex, hcq, hcs, hcf⟩ :=
            run_job_ops_inv rest r2 (t + 1) r' hinv2 hmono2 hrun
          refine ⟨hex, ?_, ?_, ?_⟩

          · rw [List.countP_cons]
            cases hset : setsQueuedTime op
            · simp [hset] at hq2
              simp [hset, hq2] at hcq ⊢
              omega
            · have := hqnone hset
              simp [hset, this] at hq2 hcq ⊢
              simp [hq2] at hcq
              omega
          · rw [List.countP_cons]
            cases hset : setsStartedTime op
            · simp [hset] at hs2
              simp [hset, hs2] at hcs ⊢
              omega
            · have := hsnone hset
              simp [hset, this] at hs2 hcs ⊢
              simp [hs2] at hcs
              omega
          · rw [List.countP_cons]
            cases hset : setsFinishedTime op
            · simp [hset] at hf2
              simp [hset, hf2] at hcf ⊢
              omega
            · have := hfnone hset
              simp [hset, this] at hf2 hcf ⊢
              simp [hf2] at hcf
              omega

/-- From the record invariant, three set timestamps are strictly ordered. -/
theorem recordInvariant_ordered (r : JobRecord) (b q s f : Nat)
    (hinv : recordInvariantAt r b = true)
    (hq : r.time_queued_msec = some q)
    (hs : r.time_started_msec = some s)
    (hf : r.time_finished_msec = some f) :
    q < s ∧ s < f := by
  obtain ⟨rid, st, tq, ts, tf, out, err⟩ := r
  simp only at hq hs hf
  subst hq; subst hs; subst hf
  cases st <;> simp [recordInvariantAt] at hinv <;> omega

/-- Claim C2: for every job id and every status-transition operation
(enqueue, register_start, register_completion, register_failure), if the
current status does not permit the attempted transition under the legal
graph, the operation fails with an invalid-status-code-change error naming
the job id and the attempted from/to states, and the stored Job Record
(including its status) is left unchanged. -/
theorem invalid_transition_rejected
    (store : JobStore) (jobId : String) (r : JobRecord) (op : JobOp) (t : Nat)
    (hlook : storeLookup store jobId = some r) (hid : r.id = jobId)
    (hinvalid : valid_status_transition r.status_code (opTarget op) = false) :
    apply_job_op_to_store store jobId op t =
      (store, some (.invalidStatusChange jobId r.status_code (opTarget op))) ∧
    jobErrorMessage (.invalidStatusChange jobId r.status_code (opTarget op)) =
      "Invalid status code change for job " ++ jobId ++ ": from "
        ++ statusName r.status_code ++ " to " ++ statusName (opTarget op) := by
  constructor
  · have hap : apply_job_op r op t =
        .error (.invalidStatusChange r.id r.status_code (opTarget op)) := by
      cases op <;>
        simp [apply_job_op, enqueue, register_start, register_completion,
          register_failure, update_status, opTarget, Except.map] at hinvalid ⊢ <;>
        simp [hinvalid]
    simp [apply_job_op_to_store, hlook, hap, hid]
  · rfl

theorem invalid_transition_rejected_witness :
    apply_job_op_to_store
        [("j1", { create_new "j1" with status_code := .queued })] "j1"
        (.completeOp ["out"] 100) 7 =
      ([("j1", { create_new "j1" with status_code := .queued })],
        some (.invalidStatusChange "j1" .queued .completed)) ∧
    jobErrorMessage (.invalidStatusChange "j1" .queued .completed) =
      "Invalid status code change for job " ++ "j1" ++ ": from "
        ++ statusName .queued ++ " to " ++ statusName .completed :=
  invalid_transition_rejected
    [("j1", { create_new "j1" with status_code := .queued })] "j1"
    { create_new "j1" with status_code := .queued }
    (.completeOp ["out"] 100) 7 (by rfl) (by rfl) (by rfl)

/-- Claim C3: the stored output of register_completion is the longest prefix
of the stringified items whose joined length fits the character budget, with
the fixed sentinel appended as last element iff any item was dropped; in
particular items 1..5 under a 3-character budget compress to
1, 2, 3, sentinel. -/
theorem compress_output_is_longest_fitting_prefix :
    (∀ (items : List String) (n : Nat), ∃ k,
      k ≤ items.length ∧
      sumLen (items.take k) ≤ n ∧
      (∀ j, j ≤ items.length → sumLen (items.take j) ≤ n → j ≤ k) ∧
      ((k = items.length ∧ compress_output_list items n = items) ∨
       (k < items.length ∧
         compress_output_list items n = items.take k ++ [truncatedSentinel]))) ∧
    compress_output_list (([1, 2, 3, 4, 5] : List Nat).map toString) 3 =
      ["1", "2", "3", "<TRUNCATED>"] := by
  constructor
  · intro items
    induction items with
    | nil =>
        intro n
        exact ⟨0, by simp, by simp [sumLen], fun j hj _ => by simpa using hj,
          Or.inl ⟨rfl, rfl⟩⟩
    | cons x xs ih =>
        intro n
        by_cases hx : x.length ≤ n
        · obtain ⟨k, hk1, hk2, hk3, hk4⟩ := ih (n - x.length)
          refine ⟨k + 1, by simpa using hk1, ?_, ?_, ?_⟩
          · simp only [List.take_succ_cons, sumLen_cons]
            omega
          · intro j hj hjsum
            cases j with
            | zero => omega
            | succ j2 =>
                simp only [List.take_succ_cons, sumLen_cons] at hjsum
                have : sumLen (xs.take j2) ≤ n - x.length := by omega
                have := hk3 j2 (by simpa using hj) this
                omega
          · rcases hk4 with ⟨hk, hc⟩ | ⟨hk, hc⟩
            · exact Or.inl ⟨by simp [hk], by
                simp [compress_output_list, hx, hc]⟩
            · exact Or.inr ⟨by simpa using hk, by
                simp [compress_output_list, hx, hc]⟩
        · refine ⟨0, by simp, by simp [sumLen], ?_, Or.inr ⟨by simp, ?_⟩⟩
          · intro j hj hjsum
            cases j with
            | zero => omega
            | succ j2 =>
                simp only [List.take_succ_cons, sumLen_cons] at hjsum
                omega
          · simp [compress_output_list, hx]
  · rfl

theorem compress_output_is_longest_fitting_prefix_witness :
    ∃ k, k ≤ 2 ∧
      sumLen ((["ab", "cde"].take k : List String)) ≤ 2 ∧
      (∀ j, j ≤ 2 → sumLen ((["ab", "cde"] : List String).take j) ≤ 2 → j ≤ k) ∧
      ((k = 2 ∧ compress_output_list ["ab", "cde"] 2 = ["ab", "cde"]) ∨
       (k < 2 ∧ compress_output_list ["ab", "cde"] 2 =
          (["ab", "cde"].take k : List String) ++ [truncatedSentinel])) := by
  have h := compress_output_is_longest_fitting_prefix.1 ["ab", "cde"] 2
  simpa using h

/-- Claim C4: an execution failure reaching the boundary handler while the
job is still NEW is logged with a timestamped message identifying the job id
and then reported as an invalid-transition error (from new to failed); the
stored record is not marked FAILED. -/
theorem failure_before_start_reports_invalid_transition
    (store : JobStore) (jobId : String) (r : JobRecord) (t : Nat)
    (msg : String)
    (hlook : storeLookup store jobId = some r) (hid : r.id = jobId)
    (hnew : r.status_code = .new) :
    handle_job_execution_failure store jobId t msg =
      (store, ["Job " ++ jobId ++ " failed at " ++ toString t],
        some (.invalidStatusChange jobId .new .failed)) ∧
    jobErrorMessage (.invalidStatusChange jobId .new .failed) =
      "Invalid status code change for job " ++ jobId
        ++ ": from new to failed" := by
  constructor
  · have hap : apply_job_op r (.failOp msg) t =
        .error (.invalidStatusChange r.id r.status_code .failed) := by
      simp [apply_job_op, register_failure, update_status, hnew, Except.map,
        valid_status_transition]
    simp [handle_job_execution_failure, apply_job_op_to_store, hlook, hap,
      hid, hnew]
  · simp [jobErrorMessage, statusName, String.append_assoc]

theorem failure_before_start_reports_invalid_transition_witness :
    handle_job_execution_failure [("j2", create_new "j2")] "j2" 42 "boom" =
      ([("j2", create_new "j2")], ["Job " ++ "j2" ++ " failed at " ++ toString 42],
        some (.invalidStatusChange "j2" .new .failed)) ∧
    jobErrorMessage (.invalidStatusChange "j2" .new .failed) =
      "Invalid status code change for job " ++ "j2"
        ++ ": from new to failed" :=
  failure_before_start_reports_invalid_transition
    [("j2", create_new "j2")] "j2" (create_new "j2") 42 "boom"
    (by rfl) (by rfl) (by rfl)

/-- Claim C6: cancel_all_unfinished_jobs leaves every non-terminal job of the
manager type CANCELED with error "Canceled by (user_id)" and null output (so
is_active becomes false for each), and leaves jobs already in a terminal
status unchanged. -/
theorem cancel_all_unfinished_jobs_marks_canceled
    (jobs : List JobRecord) (userId : String) (i : Nat) (r : JobRecord)
    (hget : jobs[i]? = some r) :
    ∃ r', (cancel_all_unfinished_jobs userId jobs)[i]? = some r' ∧
      (isTerminalStatus r.status_code = false →
        r'.status_code = .canceled ∧
        r'.error = some ("Canceled by " ++ userId) ∧
        r'.output = none ∧ is_active r' = false) ∧
      (isTerminalStatus r.status_code = true → r' = r) := by
  refine ⟨cancel_job userId r, ?_, ?_, ?_⟩
  · simp [cancel_all_unfinished_jobs, hget]
  · intro hterm
    simp [cancel_job, hterm, is_active]
  · intro hterm
    simp [cancel_job, hterm]

theorem cancel_all_unfinished_jobs_marks_canceled_witness :
    ∃ r', (cancel_all_unfinished_jobs "admin_user_id"
        [{ create_new "a" with status_code := .queued }])[0]? = some r' ∧
      (isTerminalStatus JobStatus.queued = false →
        r'.status_code = .canceled ∧
        r'.error = some ("Canceled by " ++ "admin_user_id") ∧
        r'.output = none ∧ is_active r' = false) ∧
      (isTerminalStatus JobStatus.queued = true →
        r' = { create_new "a" with status_code := .queued }) :=
  cancel_all_unfinished_jobs_marks_canceled
    [{ create_new "a" with status_code := .queued }] "admin_user_id" 0
    { create_new "a" with status_code := .queued } (by rfl)

/-- Claim C8: for every job driven from creation through a legal transition
sequence (with increasing wall-clock times) to a terminal state, once the
three timestamps are all set each was set exactly once (exactly one
operation of each timestamp-setting kind occurred) and they satisfy
time_queued_msec < time_started_msec < time_finished_msec. -/
theorem job_timestamps_strictly_ordered
    (jobId : String) (ops : List (JobOp × Nat)) (r' : JobRecord)
    (q s f : Nat)
    (hmono : timesIncreasing 0 (ops.map Prod.snd) = true)
    (hrun : run_job_ops (create_new jobId) ops = .ok r')
    (_hterm : isTerminalStatus r'.status_code = true)
    (hq : r'.time_queued_msec = some q)
    (hs : r'.time_started_msec = some s)
    (hf : r'.time_finished_msec = some f) :
    (q < s ∧ s < f) ∧
    ops.countP (fun p => setsQueuedTime p.1) = 1 ∧
    ops.countP (fun p => setsStartedTime p.1) = 1 ∧
    ops.countP (fun p => setsFinishedTime p.1) = 1 := by
  have hinv0 : recordInvariantAt (create_new jobId) 0 = true := rfl
  obtain ⟨⟨b2, hinv2⟩, hcq, hcs, hcf⟩ :=
    run_job_ops_inv ops (create_new jobId) 0 r' hinv0 hmono hrun
  refine ⟨recordInvariant_ordered r' b2 q s f hinv2 hq hs hf, ?_, ?_, ?_⟩
  · simpa [create_new, hq] using hcq
  · simpa [create_new, hs] using hcs
  · simpa [create_new, hf] using hcf

theorem job_timestamps_strictly_ordered_witness :
    ((1 < 2 ∧ 2 < 3) ∧
      ([((JobOp.enqueueOp : JobOp), 1), (.startOp, 2), (.completeOp [] 5, 3)].countP
        (fun p => setsQueuedTime p.1) = 1) ∧
      ([((JobOp.enqueueOp : JobOp), 1), (.startOp, 2), (.completeOp [] 5, 3)].countP
        (fun p => setsStartedTime p.1) = 1) ∧
      ([((JobOp.enqueueOp : JobOp), 1), (.startOp, 2), (.completeOp [] 5, 3)].countP
        (fun p => setsFinishedTime p.1) = 1)) :=
  job_timestamps_strictly_ordered "job1"
    [(.enqueueOp, 1), (.startOp, 2), (.completeOp [] 5, 3)]
    { id := "job1", status_code := .completed, time_queued_msec := some 1,
      time_started_msec := some 2, time_finished_msec := some 3,
      output := some [], error := none }
    1 2 3 (by decide) rfl rfl rfl rfl rfl

/-- Modelled from the spec (and jobs_test.py, which uses ids like "0:exp_id"):
the id of a realtime layer record is the layer index followed by a colon and
the subject id. -/
def get_realtime_id (layerIndex : Nat) (subjectId : String) : String :=
  toString layerIndex ++ ":" ++ subjectId

/-- Modelled from the spec: the put-time validation of a realtime layer
record: its realtime_layer field must equal the layer index encoded at the
front of its id. -/
def realtime_id_matches_layer (recordId : String) (layerIndex : Nat) : Bool :=
  (toString layerIndex ++ ":").data.isPrefixOf recordId.data

/-- The persisted collection of realtime layer records, keyed by id. -/
abbrev RealtimeRecordStore : Type := List (String × Nat)

/-- Modelled from the spec: storing a realtime layer record.  A record whose
realtime_layer field does not match the layer encoded in its id is rejected
with a hard error and nothing is persisted; otherwise the record is stored
(most recent put for an id wins). -/
def realtime_record_put (store : RealtimeRecordStore) (recordId : String)
    (layerIndex count : Nat) : Except String RealtimeRecordStore :=
  if realtime_id_matches_layer recordId layerIndex then
    .ok ((recordId, count) :: store)
  else
    .error ("Realtime layer " ++ toString layerIndex
      ++ " does not match realtime id " ++ recordId)

/-- The validation accepts exactly the ids that encode the given layer. -/
theorem realtime_id_matches_iff (recordId : String) (layerIndex : Nat) :
    realtime_id_matches_layer recordId layerIndex = true ↔
      ∃ subjectId, recordId = get_realtime_id layerIndex subjectId := by
  unfold realtime_id_matches_layer get_realtime_id
  constructor
  · intro h
    obtain ⟨tail, htail⟩ := List.isPrefixOf_iff_prefix.mp h
    refine ⟨String.mk tail, String.ext ?_⟩
    simp [← htail]
  · rintro ⟨s, rfl⟩
    exact List.isPrefixOf_iff_prefix.mpr (by simp)

/-- Claim C9: a realtime layer record whose realtime_layer field does not
equal the layer index encoded in its id (including an id that encodes no
layer at all) is rejected at put time with a hard error naming the layer and
the id, rather than persisted. -/
theorem realtime_put_rejects_mismatched_layer
    (store : RealtimeRecordStore) (recordId : String) (layerIndex count : Nat)
    (hmismatch : ¬ ∃ subjectId, recordId = get_realtime_id layerIndex subjectId) :
    realtime_record_put store recordId layerIndex count =
      .error ("Realtime layer " ++ toString layerIndex
        ++ " does not match realtime id " ++ recordId) := by
  have hfalse : realtime_id_matches_layer recordId layerIndex = false := by
    cases h : realtime_id_matches_layer recordId layerIndex
    · rfl
    · exact absurd ((realtime_id_matches_iff recordId layerIndex).mp h) hmismatch
  simp [realtime_record_put, hfalse]

theorem realtime_put_rejects_mismatched_layer_witness :
    realtime_record_put [] "invalid_realtime_model_id" 1 1 =
      .error ("Realtime layer " ++ toString 1
        ++ " does not match realtime id " ++ "invalid_realtime_model_id") :=
  realtime_put_rejects_mismatched_layer [] "invalid_realtime_model_id" 1 1
    (fun hex => by
      have h := (realtime_id_matches_iff "invalid_realtime_model_id" 1).mpr hex
      exact absurd h (by decide))

/-- Translated from core/jobs_registry.py: the interface of a registered
continuous computation manager as the dispatcher sees it: the declared event
types and the on_incoming_event class method, modelled as a transformer of
the external state sigma with the event type and payload as arguments. -/
structure CCManagerIface (σ ε α : Type) where
  get_event_types_listened_to : List ε
  on_incoming_event : ε → α → σ → σ

/-- Translated from
ContinuousComputationEventDispatcher.dispatch_event in core/jobs_registry.py:
iterate over the registered managers in list order and invoke
on_incoming_event, with the same event type and payload, on each manager
whose declared event types contain the event type.  The registration list
(ALL_CONTINUOUS_COMPUTATION_MANAGERS, swapped by the tests) is a parameter. -/
def dispatch_event {σ ε α : Type} [DecidableEq ε]
    (allManagers : List (CCManagerIface σ ε α)) (eventType : ε) (payload : α)
    (s : σ) : σ :=
  allManagers.foldl
    (fun st klass =>
      if eventType ∈ klass.get_event_types_listened_to then
        klass.on_incoming_event eventType payload st
      else st) s

/-- Claim C5: dispatch_event invokes on_incoming_event, with the same
payload, on exactly the managers of the registration list whose declared
event types contain the event type, in the registration list's insertion
order; managers not listening to the event type are not invoked. -/
theorem dispatch_event_invokes_exactly_listeners {σ ε α : Type}
    [DecidableEq ε] (managers : List (CCManagerIface σ ε α)) (eventType : ε)
    (payload : α) (s : σ) :
    dispatch_event managers eventType payload s =
      (managers.filter
          (fun m => decide (eventType ∈ m.get_event_types_listened_to))).foldl
        (fun st m => m.on_incoming_event eventType payload st) s := by
  induction managers generalizing s with
  | nil => rfl
  | cons m rest ih =>
      by_cases hm : eventType ∈ m.get_event_types_listened_to <;>
        simp [dispatch_event, List.filter_cons, hm] <;>
        exact ih _

theorem dispatch_event_invokes_exactly_listeners_witness :
    dispatch_event
        [⟨["start"], fun _ p log => log ++ ["A:" ++ p]⟩,
         ⟨["finish"], fun _ p log => log ++ ["B:" ++ p]⟩,
         ⟨["start", "finish"], fun _ p log => log ++ ["C:" ++ p]⟩]
        "start" "exp_id" ([] : List String) =
      (([⟨["start"], fun _ p log => log ++ ["A:" ++ p]⟩,
         ⟨["finish"], fun _ p log => log ++ ["B:" ++ p]⟩,
         ⟨["start", "finish"], fun _ p log => log ++ ["C:" ++ p]⟩] :
            List (CCManagerIface (List String) String String)).filter
          (fun m => decide ("start" ∈ m.get_event_types_listened_to))).foldl
        (fun st m => m.on_incoming_event "start" "exp_id" st) [] :=
  dispatch_event_invokes_exactly_listeners _ "start" "exp_id" []

/-- Modelled from the spec: the status codes of a continuous computation. -/
inductive CCStatus where
  | idle
  | running
  | stopping
deriving DecidableEq, Repr

/-- A realtime layer store: counts keyed by (layer index, subject id); the
most recent entry for a key wins. -/
abbrev RealtimeLayerStore : Type := List ((Nat × String) × Nat)

/-- First-match lookup of the count stored for (layer, subject). -/
def realtimeLookup : RealtimeLayerStore → Nat → String → Option Nat
  | [], _, _ => none
  | (k, v) :: rest, layer, subject =>
    if k = (layer, subject) then some v else realtimeLookup rest layer subject

/-- Delete every record of the given realtime layer. -/
def realtimeDeleteLayer (store : RealtimeLayerStore) (layer : Nat) :
    RealtimeLayerStore :=
  store.filter (fun kv => kv.1.1 != layer)

/-- The canonical aggregate store (ExplorationAnnotationsModel in the tests):
num_starts keyed by subject id; the most recent entry for a key wins. -/
abbrev CanonicalStore : Type := List (String × Nat)

/-- First-match lookup of the canonical num_starts for a subject. -/
def canonicalLookup : CanonicalStore → String → Option Nat
  | [], _ => none
  | (k, v) :: rest, subject =>
    if k = subject then some v else canonicalLookup rest subject

/-- The state touched by one continuous computation: its status record, the
two realtime layers, the canonical aggregate, the durable event log the
batch job maps over, and the outstanding batch job (represented by its
time_queued), if any. -/
structure CCWorld where
  computation_type : String
  status_code : CCStatus
  active_realtime_layer_index : Nat
  last_started_msec : Option Nat
  last_finished_msec : Option Nat
  last_stopped_msec : Option Nat
  realtime_store : RealtimeLayerStore
  canonical_store : CanonicalStore
  event_log : List (String × Nat)
  pending_batch_time_queued : Option Nat
deriving DecidableEq, Repr

/-- Modelled from the spec: a fresh continuous computation status record:
IDLE, active layer 0, nothing recorded yet. -/
def initial_cc_world (computationType : String) : CCWorld :=
  { computation_type := computationType
    status_code := .idle
    active_realtime_layer_index := 0
    last_started_msec := none
    last_finished_msec := none
    last_stopped_msec := none
    realtime_store := []
    canonical_store := []
    event_log := []
    pending_batch_time_queued := none }

/-- An event for a subject is recorded: the durable event-log entry is
created (jobs_test.py does this with StartExplorationEventLogEntryModel) and
on_incoming_event routes the update into the active realtime layer, whose
record for the subject is put with count 1, as in the handler
StartExplorationEventCounter does in jobs_test.py (the mock handler puts a
fresh count of 1 rather than incrementing). -/
def record_event (w : CCWorld) (subjectId : String) (t : Nat) : CCWorld :=
  { w with
      event_log := w.event_log ++ [(subjectId, t)]
      realtime_store :=
        ((w.active_realtime_layer_index, subjectId), 1) :: w.realtime_store }

/-- Modelled from the spec: the error raised when starting a computation
that is not IDLE. -/
inductive CCError where
  | alreadyRunning (computationType : String)
deriving DecidableEq, Repr

/-- The user-visible message of a continuous-computation error, as the tests
match it. -/
def ccErrorMessage : CCError → String
  | .alreadyRunning name =>
      "Attempted to start computation " ++ name
        ++ ", which is already running."

/-- Modelled from the spec: start_computation fails with an already-running
error naming the computation type unless the status is IDLE; otherwise it
flips the active layer index to the other layer, deletes every record of the
newly-active layer (so it starts empty while the frozen, formerly active
layer is untouched), transitions to RUNNING, records last_started_msec, and
enqueues one batch job over the events logged so far (represented by its
time_queued). -/
def start_computation (w : CCWorld) (t : Nat) : Except CCError CCWorld :=
  if w.status_code = .idle then
    .ok { w with
        status_code := .running
        active_realtime_layer_index := 1 - w.active_realtime_layer_index
        realtime_store :=
          realtimeDeleteLayer w.realtime_store
            (1 - w.active_realtime_layer_index)
        last_started_msec := some t
        pending_batch_time_queued := some t }
  else
    .error (.alreadyRunning w.computation_type)

/-- Translated from jobs_test.py (MockStartExplorationMRJobManager map and
reduce): the batch job counts, per subject, the event-log entries created
strictly before the job was queued (entity_created_before_job_queued). -/
def batch_num_starts (log : List (String × Nat)) (timeQueued : Nat)
    (subjectId : String) : Nat :=
  (log.filter (fun e => e.1 == subjectId && decide (e.2 < timeQueued))).length

/-- Modelled from the spec (reduce writes one canonical record per key that
received values): on_batch_job_completion stores the batch's per-subject
counts into the canonical aggregate, deletes every record of the frozen
(inactive) layer, records last_finished_msec, and clears the outstanding
batch job.  As in the test managers, which override
_kickoff_batch_job_after_previous_one_ends to do nothing, no next cycle is
kicked off automatically. -/
def on_batch_job_completion (w : CCWorld) (t : Nat) : CCWorld :=
  match w.pending_batch_time_queued with
  | none => w
  | some tq =>
    { w with
        canonical_store :=
          ((w.event_log.filter (fun e => decide (e.2 < tq))).map
              Prod.fst).foldl
            (fun c subj => (subj, batch_num_starts w.event_log tq subj) :: c)
            w.canonical_store
        realtime_store :=
          realtimeDeleteLayer w.realtime_store
            (1 - w.active_realtime_layer_index)
        last_finished_msec := some t
        pending_batch_time_queued := none }

/-- Modelled from the spec: stop_computation cancels the outstanding batch
job (attributed to the user), transitions the computation to IDLE and
records last_stopped_msec.  The transient STOPPING state that exists while
the cancellation is being confirmed is not observable in this synchronous
model, and stopping touches neither the realtime layers nor the canonical
aggregate. -/
def stop_computation (w : CCWorld) (_userId : String) (t : Nat) : CCWorld :=
  { w with
      status_code := .idle
      pending_batch_time_queued := none
      last_stopped_msec := some t }

/-- Translated from jobs_test.py (StartExplorationEventCounter.get_count):
the answer to a count query is the canonical num_starts (0 if absent) plus
the active realtime layer's count for the subject (0 if absent). -/
def get_count (w : CCWorld) (subjectId : String) : Nat :=
  (canonicalLookup w.canonical_store subjectId).getD 0 +
    (realtimeLookup w.realtime_store w.active_realtime_layer_index
        subjectId).getD 0

theorem realtimeLookup_deleteLayer_self (store : RealtimeLayerStore)
    (layer : Nat) (subject : String) :
    realtimeLookup (realtimeDeleteLayer store layer) layer subject = none := by
  induction store with
  | nil => rfl
  | cons kv rest ih =>
      obtain ⟨⟨l, s⟩, v⟩ := kv
      by_cases hl : l = layer
      · simpa [realtimeDeleteLayer, List.filter_cons, hl] using ih
      · simpa [realtimeDeleteLayer, List.filter_cons, hl, realtimeLookup]
          using ih

theorem realtimeLookup_deleteLayer_other (store : RealtimeLayerStore)
    (layer layer2 : Nat) (subject : String) (h : layer2 ≠ layer) :
    realtimeLookup (realtimeDeleteLayer store layer) layer2 subject =
      realtimeLookup store layer2 subject := by
  induction store with
  | nil => rfl
  | cons kv rest ih =>
      obtain ⟨⟨l, s⟩, v⟩ := kv
      by_cases hl : l = layer
      · subst hl
        have hne : ¬ (l = layer2) := fun hc => h hc.symm
        simpa [realtimeDeleteLayer, List.filter_cons, realtimeLookup, hne]
          using ih
      · by_cases hk : l = layer2 ∧ s = subject
        · simp [realtimeDeleteLayer, List.filter_cons, hl, realtimeLookup,
            hk.1, hk.2, h]
        · simpa [realtimeDeleteLayer, List.filter_cons, hl, realtimeLookup,
            hk] using ih

/-- Claim C7: starting a continuous computation whose status is not IDLE
fails with an already-running error naming the computation type (and hence
does not enqueue a second batch job); after the outstanding run finishes and
stop_computation is called, the computation can be started again. -/
theorem start_computation_fails_when_not_idle
    (w : CCWorld) (t : Nat) (hnotIdle : w.status_code ≠ .idle) :
    (start_computation w t = .error (.alreadyRunning w.computation_type) ∧
      ccErrorMessage (.alreadyRunning w.computation_type) =
        "Attempted to start computation " ++ w.computation_type
          ++ ", which is already running.") ∧
    (∀ (tFin tStop t2 : Nat) (userId : String), ∃ w2,
      start_computation
          (stop_computation (on_batch_job_completion w tFin) userId tStop)
          t2 =
        .ok w2) := by
  refine ⟨⟨?_, rfl⟩, ?_⟩
  · simp [start_computation, hnotIdle]
  · intro tFin tStop t2 userId
    exact ⟨_, rfl⟩

theorem start_computation_fails_when_not_idle_witness :
    (start_computation
          { initial_cc_world "StartExplorationEventCounter" with
              status_code := .running } 9 =
        .error (.alreadyRunning
          ({ initial_cc_world "StartExplorationEventCounter" with
              status_code := .running } : CCWorld).computation_type) ∧
      ccErrorMessage (.alreadyRunning
          ({ initial_cc_world "StartExplorationEventCounter" with
              status_code := .running } : CCWorld).computation_type) =
        "Attempted to start computation "
          ++ ({ initial_cc_world "StartExplorationEventCounter" with
              status_code := .running } : CCWorld).computation_type
          ++ ", which is already running.") ∧
    (∀ (tFin tStop t2 : Nat) (userId : String), ∃ w2,
      start_computation
          (stop_computation
            (on_batch_job_completion
              { initial_cc_world "StartExplorationEventCounter" with
                  status_code := .running } tFin) userId tStop) t2 =
        .ok w2) :=
  start_computation_fails_when_not_idle
    { initial_cc_world "StartExplorationEventCounter" with
        status_code := .running } 9 (by decide)

/-- Claim C10: a successful start_computation deletes every realtime record
of the layer that becomes active (the newly-active layer starts empty),
leaves the frozen (formerly active) layer's records untouched, and the
frozen layer's records are deleted when the batch job completes. -/
theorem start_computation_clears_newly_active_layer
    (w : CCWorld) (t tFin : Nat) (w2 : CCWorld)
    (hlayer : w.active_realtime_layer_index ≤ 1)
    (hstart : start_computation w t = .ok w2) :
    w2.active_realtime_layer_index = 1 - w.active_realtime_layer_index ∧
    (∀ subjectId, realtimeLookup w2.realtime_store
        w2.active_realtime_layer_index subjectId = none) ∧
    (∀ subjectId, realtimeLookup w2.realtime_store
        w.active_realtime_layer_index subjectId =
      realtimeLookup w.realtime_store w.active_realtime_layer_index
        subjectId) ∧
    (∀ subjectId, realtimeLookup
        (on_batch_job_completion w2 tFin).realtime_store
        w.active_realtime_layer_index subjectId = none) := by
  by_cases hidle : w.status_code = .idle
  · simp [start_computation, hidle] at hstart
    subst hstart
    refine ⟨rfl, ?_, ?_, ?_⟩
    · intro subjectId
      exact realtimeLookup_deleteLayer_self _ _ _
    · intro subjectId
      exact realtimeLookup_deleteLayer_other _ _ _ _ (by omega)
    · intro subjectId
      simp only [on_batch_job_completion]
      have harg : 1 - (1 - w.active_realtime_layer_index) =
          w.active_realtime_layer_index := by omega
      simp only [harg]
      exact realtimeLookup_deleteLayer_self _ _ _
  · simp [start_computation, hidle] at hstart

/-- A sample world for the C10 witness: IDLE, active layer 0, one record in
realtime layer 0. -/
def sampleStartWorld : CCWorld :=
  { initial_cc_world "C" with realtime_store := [((0, "e"), 1)] }

/-- The world produced by start_computation on the sample world at time 5. -/
def sampleStartedWorld : CCWorld :=
  { initial_cc_world "C" with
      status_code := .running
      active_realtime_layer_index := 1
      realtime_store := [((0, "e"), 1)]
      last_started_msec := some 5
      pending_batch_time_queued := some 5 }

theorem start_computation_clears_newly_active_layer_witness :
    sampleStartedWorld.active_realtime_layer_index =
      1 - sampleStartWorld.active_realtime_layer_index ∧
    (∀ subjectId, realtimeLookup sampleStartedWorld.realtime_store
        sampleStartedWorld.active_realtime_layer_index subjectId = none) ∧
    (∀ subjectId, realtimeLookup sampleStartedWorld.realtime_store
        sampleStartWorld.active_realtime_layer_index subjectId =
      realtimeLookup sampleStartWorld.realtime_store
        sampleStartWorld.active_realtime_layer_index subjectId) ∧
    (∀ subjectId, realtimeLookup
        (on_batch_job_completion sampleStartedWorld 8).realtime_store
        sampleStartWorld.active_realtime_layer_index subjectId = none) :=
  start_computation_clears_newly_active_layer
    sampleStartWorld 5 8 sampleStartedWorld (by decide) rfl

/-- The concrete dual-layer scenario of claim C1: a fresh computation with
one subject. -/
def c1World0 : CCWorld := initial_cc_world "StartExplorationEventCounter"

/-- A first event for the subject is recorded at time 10. -/
def c1World1 : CCWorld := record_event c1World0 "exp_id" 10

/-- start_computation is invoked at time 20 (it succeeds from IDLE). -/
def c1World2 : CCWorld := ((start_computation c1World1 20).toOption).getD c1World1

/-- A second event for the same subject is recorded at time 30, before the
batch job completes. -/
def c1World3 : CCWorld := record_event c1World2 "exp_id" 30

/-- The batch job completes at time 35. -/
def c1World4 : CCWorld := on_batch_job_completion c1World3 35

/-- The computation is stopped at time 40, with no further events. -/
def c1World5 : CCWorld := stop_computation c1World4 "admin_user_id" 40

/-- A further batch cycle is started at time 50 ... -/
def c1World6 : CCWorld := ((start_computation c1World5 50).toOption).getD c1World5

/-- ... and completes at time 55, still with no further events. -/
def c1World7 : CCWorld := on_batch_job_completion c1World6 55

/-- Claim C1 is false as stated, at the concrete trace c1World0..c1World5:
the scenario premises play out as the claim describes (after batch
completion the canonical aggregate holds only the first event and get_count
reflects both), but after the computation is stopped with no further events
the realtime records for the subject are not absent from both layers: the
active layer still holds the second event's record. -/
theorem dual_layer_stop_leaves_active_record :
    (start_computation c1World1 20).toOption = some c1World2 ∧
    canonicalLookup c1World4.canonical_store "exp_id" = some 1 ∧
    get_count c1World4 "exp_id" = 2 ∧
    ¬ (realtimeLookup c1World5.realtime_store 0 "exp_id" = none ∧
       realtimeLookup c1World5.realtime_store 1 "exp_id" = none) := by
  decide

/-- Claim C1 (amended): in the dual-layer scenario - an event recorded, then
start_computation, then a second event recorded before the batch job
completes - the canonical aggregate after batch completion reflects only the
first event while get_count (canonical plus active layer) reflects both;
after the computation is stopped with no further events, the frozen layer's
record for the subject is absent while the active layer still holds the
second event's record, and the records for the subject are absent from both
layers (with the canonical aggregate reflecting both events) only after a
further batch cycle runs with no new events. -/
theorem dual_layer_property_amended :
    (start_computation c1World1 20).toOption = some c1World2 ∧
    canonicalLookup c1World4.canonical_store "exp_id" = some 1 ∧
    get_count c1World4 "exp_id" = 2 ∧
    realtimeLookup c1World5.realtime_store 0 "exp_id" = none ∧
    realtimeLookup c1World5.realtime_store 1 "exp_id" = some 1 ∧
    (start_computation c1World5 50).toOption = some c1World6 ∧
    realtimeLookup c1World7.realtime_store 0 "exp_id" = none ∧
    realtimeLookup c1World7.realtime_store 1 "exp_id" = none ∧
    canonicalLookup c1World7.canonical_store "exp_id" = some 2 ∧
    get_count c1World7 "exp_id" = 2 := by
  decide

end OppiaJobs
